import Mathlib

/-!
Verification development for the discord-recaptcha verification gate.

The repository is a Next.js app: a client page (src/app/page.tsx) drives a
reCAPTCHA verification attempt through the states
loading / analyzing / validating / success / error, and a server relay
(src/app/api/verify/route.ts) re-validates the token with the challenge
provider, applies a 0.5 score threshold and notifies a downstream Express
service.  Utility code (src/unnamed/part_000) collects environment signals:
browser classification, an ordered-fallback IP geolocation resolver and a
rolling-hash fingerprint.

Each definition below is a shallow embedding of one source function;
external effects (env vars, fetch outcomes, timers) are passed in as
explicit data, and JavaScript falsy optional values are modelled as
Option with none standing for absent-or-falsy.
-/

/-- Containment of pat as a contiguous run inside s, on character lists. -/
def hasInfix (pat : List Char) : List Char → Bool
  | [] => pat.isEmpty
  | c :: rest => pat.isPrefixOf (c :: rest) || hasInfix pat rest

/-- Substring containment, the model of JavaScript String.prototype.includes
(for the non-empty literal patterns used in the source). -/
def jsIncludes (s pat : String) : Bool :=
  hasInfix pat.toList s.toList

/-- The model of JavaScript String.prototype.startsWith. -/
def jsStartsWith (s pat : String) : Bool :=
  pat.toList.isPrefixOf s.toList

/-- The model of JavaScript String.prototype.slice(n): drop the first n
characters (identical to code-unit slicing on the ASCII data involved). -/
def jsSliceFrom (s : String) (n : ℕ) : String :=
  (s.toList.drop n).asString

/-! Embedding of the POST handler of src/app/api/verify/route.ts. -/

/-- The two environment variables read by the /api/verify handler.
none models an unset (or empty, hence falsy) variable. -/
structure VerifyEnv where
  discordApiKey : Option String
  recaptchaSecretKey : Option String
deriving Repr, DecidableEq

/-- The request as the handler sees it: the authorization header (none when
absent; the handler coalesces it to "") and the JSON body fields, where
none models an absent or falsy field. -/
structure VerifyRequest where
  authHeader : Option String
  id : Option String
  captcha : Option String
  guild : Option String
  guild_name : Option String
  guild_icon : Option String
deriving Repr, DecidableEq

/-- Outcome of the handler's fetch to the reCAPTCHA siteverify API.
fetchFailed covers a thrown fetch or a non-ok response (the handler throws
to its outer catch); result carries the parsed JSON body fields used by the
handler: success, the optional numeric score, and error-codes. -/
inductive RecaptchaOutcome where
  | fetchFailed
  | result (success : Bool) (score : Option ℚ) (errorCodes : List String)
deriving Repr, DecidableEq

/-- Outcome of the notification POST to the downstream Express service, as
observed inside the handler's try block: ok means a 2xx response whose body
has success true; failed msg is any throw (timeout, network fault, non-ok
status, or success false), carrying the error message the handler inspects. -/
inductive ExpressOutcome where
  | ok
  | failed (message : String)
deriving Repr, DecidableEq

/-- The fields of the handler's JSON response that the specification talks
about: HTTP status, the success flag, the error message and the echoed
score (none when the field is absent from the body). -/
structure ApiResponse where
  status : Nat
  success : Bool
  error : Option String
  score : Option ℚ
deriving Repr, DecidableEq

/-- Which of the handler's two outbound calls were actually performed. -/
structure Effects where
  recaptchaCalled : Bool
  expressCalled : Bool
deriving Repr, DecidableEq

/-- Error-message mapping for a failed siteverify response
(route.ts lines 77-107). -/
def mapRecaptchaError (errorCodes : List String) : String :=
  if errorCodes.contains "missing-input-secret" then
    "Server configuration error: missing secret"
  else if errorCodes.contains "invalid-input-secret" then
    "Server configuration error: invalid secret"
  else if errorCodes.contains "missing-input-response" then
    "Missing reCAPTCHA response"
  else if errorCodes.contains "invalid-input-response" then
    "Invalid reCAPTCHA response"
  else if errorCodes.contains "browser-error" then
    "Browser compatibility issue - please try refreshing"
  else if errorCodes.contains "timeout-or-duplicate" then
    "reCAPTCHA expired - please try again"
  else "reCAPTCHA verification failed"

/-- Error-message mapping for a failed Express notification
(route.ts lines 169-184). -/
def mapExpressError (msg : String) : String :=
  if jsIncludes msg "timeout" || jsIncludes msg "Request timeout" then
    "Discord server is taking too long to respond. Please try again."
  else if jsIncludes msg "ECONNREFUSED" || jsIncludes msg "fetch failed" then
    "Cannot connect to Discord server. Please try again later."
  else if jsIncludes msg "500" then
    "Discord server encountered an error. Please try again."
  else if jsIncludes msg "400" then
    "Invalid verification request. Please try again."
  else "Failed to complete verification with Discord server"

/-- Shallow embedding of the POST handler of src/app/api/verify/route.ts,
in source order: DISCORD_API_KEY presence, bearer-token comparison, captcha
and id presence, RECAPTCHA_SECRET_KEY presence, the siteverify call, the
success flag, the score threshold (score coalesced to 0), and finally the
Express notification.  The fire-and-forget Discord webhook never changes
the response and is not modelled.  Returns the response together with the
record of which outbound calls ran. -/
def POST (env : VerifyEnv) (req : VerifyRequest) (recaptcha : RecaptchaOutcome)
    (express : ExpressOutcome) : ApiResponse × Effects :=
  let authHeader := req.authHeader.getD ""
  match env.discordApiKey with
  | none => (⟨500, false, some "Server configuration error", none⟩, ⟨false, false⟩)
  | some expectedToken =>
    if !jsStartsWith authHeader "Bearer " || jsSliceFrom authHeader 7 != expectedToken then
      (⟨401, false, some "Unauthorized", none⟩, ⟨false, false⟩)
    else
      match req.captcha with
      | none => (⟨400, false, some "No captcha token provided", none⟩, ⟨false, false⟩)
      | some _ =>
        match req.id with
        | none => (⟨400, false, some "No user ID provided", none⟩, ⟨false, false⟩)
        | some _ =>
          match env.recaptchaSecretKey with
          | none => (⟨500, false, some "Server configuration error", none⟩, ⟨false, false⟩)
          | some _ =>
            match recaptcha with
            | .fetchFailed =>
              (⟨500, false, some "Internal server error", none⟩, ⟨true, false⟩)
            | .result rSuccess rScore errorCodes =>
              if !rSuccess then
                (⟨400, false, some (mapRecaptchaError errorCodes), some 0⟩, ⟨true, false⟩)
              else
                let score := rScore.getD 0
                if score < 1/2 then
                  (⟨400, false, some "Verification score too low", some score⟩, ⟨true, false⟩)
                else
                  match express with
                  | .ok => (⟨200, true, none, some score⟩, ⟨true, true⟩)
                  | .failed msg =>
                    (⟨500, false, some (mapExpressError msg), none⟩, ⟨true, true⟩)

/-- Claim C1: on a POST to /api/verify where the challenge provider reports
success with a numeric score, a score at or above 0.5 (including exactly
0.5) is accepted and the handler proceeds to notify the downstream Express
service, while any score strictly below 0.5 is rejected with HTTP 400,
success false, the error "Verification score too low", and the score
itself; the downstream service is then not contacted. -/
theorem score_threshold_boundary (env : VerifyEnv) (req : VerifyRequest)
    (express : ExpressOutcome) (key : String) (q : ℚ) (codes : List String)
    (hkey : env.discordApiKey = some key)
    (hauth1 : jsStartsWith (req.authHeader.getD "") "Bearer " = true)
    (hauth2 : jsSliceFrom (req.authHeader.getD "") 7 = key)
    (hcap : req.captcha.isSome = true)
    (hid : req.id.isSome = true)
    (hsec : env.recaptchaSecretKey.isSome = true) :
    ((1/2 : ℚ) ≤ q →
      (POST env req (RecaptchaOutcome.result true (some q) codes) express).2.expressCalled
        = true) ∧
    (q < 1/2 →
      (POST env req (RecaptchaOutcome.result true (some q) codes) express).1
          = ⟨400, false, some "Verification score too low", some q⟩ ∧
      (POST env req (RecaptchaOutcome.result true (some q) codes) express).2.expressCalled
        = false) := by
  obtain ⟨c, hc⟩ := Option.isSome_iff_exists.mp hcap
  obtain ⟨i, hi⟩ := Option.isSome_iff_exists.mp hid
  obtain ⟨s, hs⟩ := Option.isSome_iff_exists.mp hsec
  constructor
  · intro hq
    have hnot : ¬ (q < 1/2) := not_lt.mpr hq
    rw [one_div] at hnot
    cases express <;>
      simp [POST, hkey, hauth1, hauth2, hc, hi, hs, hnot]
  · intro hq
    have hq2 : q < (2 : ℚ)⁻¹ := by rw [← one_div]; exact hq
    simp [POST, hkey, hauth1, hauth2, hc, hi, hs, hq2]

/-- Concrete environment used by witnesses: both env vars set. -/
def exampleEnv : VerifyEnv := ⟨some "secret", some "rkey"⟩

/-- Concrete well-formed request used by witnesses. -/
def exampleReq : VerifyRequest :=
  ⟨some "Bearer secret", some "42", some "03Atoken", some "7", some "Guild", none⟩

theorem score_threshold_boundary_witness :
    (POST exampleEnv exampleReq (RecaptchaOutcome.result true (some (1/2)) [])
        ExpressOutcome.ok).2.expressCalled = true :=
  (score_threshold_boundary exampleEnv exampleReq ExpressOutcome.ok "secret" (1/2) []
    rfl (by decide) (by decide) rfl rfl rfl).1 (le_refl _)

/-- Claim C10: every POST to /api/verify is authenticated before any other
processing: with DISCORD_API_KEY unset the response is HTTP 500 with
success false, and with it set but the Authorization header not of the form
"Bearer " ++ key the response is HTTP 401 with success false and error
"Unauthorized"; in both cases neither the siteverify call nor the
downstream notification is performed. -/
theorem auth_gate (env : VerifyEnv) (req : VerifyRequest)
    (recaptcha : RecaptchaOutcome) (express : ExpressOutcome) :
    (env.discordApiKey = none →
      POST env req recaptcha express
        = (⟨500, false, some "Server configuration error", none⟩, ⟨false, false⟩)) ∧
    (∀ key, env.discordApiKey = some key →
      (jsStartsWith (req.authHeader.getD "") "Bearer " = false ∨
        jsSliceFrom (req.authHeader.getD "") 7 ≠ key) →
      POST env req recaptcha express
        = (⟨401, false, some "Unauthorized", none⟩, ⟨false, false⟩)) := by
  constructor
  · intro h
    simp [POST, h]
  · intro key hkey hbad
    rcases hbad with h | h <;> simp [POST, hkey, h]

theorem auth_gate_witness :
    POST ⟨some "secret", some "rkey"⟩
        ⟨some "Bearer wrong", some "42", some "03Atoken", some "7", none, none⟩
        RecaptchaOutcome.fetchFailed ExpressOutcome.ok
      = (⟨401, false, some "Unauthorized", none⟩, ⟨false, false⟩) :=
  (auth_gate ⟨some "secret", some "rkey"⟩
    ⟨some "Bearer wrong", some "42", some "03Atoken", some "7", none, none⟩
    RecaptchaOutcome.fetchFailed ExpressOutcome.ok).2 "secret" rfl
    (Or.inr (by decide))

/-! Embedding of the client verification state machine (src/app/page.tsx). -/

/-- The VerificationState union of src/app/page.tsx line 14. -/
inductive VState where
  | loading
  | analyzing
  | validating
  | success
  | error
deriving Repr, DecidableEq

/-- One pending setTimeout state update, with its firing time in
milliseconds measured from the start of verifyToken. -/
structure ScheduledUpdate where
  time : ℕ
  target : VState
deriving Repr, DecidableEq

/-- The state updates registered by verifyToken (page.tsx lines 263-316)
once a challenge token is obtained: analyzing is scheduled at 1500 ms and
validating at 3500 ms before the fetch of /api/verify is awaited; only
after that fetch has resolved (or rejected) at time tResp is the terminal
update scheduled, with a further fixed 5000 ms delay, so it fires at
tResp + 5000.  respOk is the success flag of the resolved response; the
catch branch produces the same schedule with respOk false. -/
def verifyTokenSchedule (respOk : Bool) (tResp : ℕ) : List ScheduledUpdate :=
  [⟨1500, VState.analyzing⟩, ⟨3500, VState.validating⟩,
   ⟨tResp + 5000, if respOk then VState.success else VState.error⟩]

/-- Insertion step of the timer scheduler: earlier firing times run first;
equal times keep registration order (JavaScript timer semantics). -/
def insertByTime (u : ScheduledUpdate) : List ScheduledUpdate → List ScheduledUpdate
  | [] => [u]
  | v :: vs => if u.time < v.time then u :: v :: vs else v :: insertByTime u vs

/-- Sort a list of pending updates by firing time, stably. -/
def sortByTime (l : List ScheduledUpdate) : List ScheduledUpdate :=
  l.foldr insertByTime []

/-- The sequence of values the state field takes during one verifyToken
run, assuming the component stays mounted: the state at entry (the attempt
is in loading when the token arrives), followed by each scheduled update in
firing order. -/
def attemptStateTrace (respOk : Bool) (tResp : ℕ) : List VState :=
  VState.loading :: (sortByTime (verifyTokenSchedule respOk tResp)).map ScheduledUpdate.target

/-- Claim C2: within a single attempt in which a token has been obtained,
the state field takes exactly the values loading, analyzing, validating and
then one terminal state, in that order: analyzing and validating are never
skipped, and analyzing is never re-entered after validating. -/
theorem attempt_state_order (respOk : Bool) (tResp : ℕ) :
    attemptStateTrace respOk tResp
      = [VState.loading, VState.analyzing, VState.validating,
         if respOk then VState.success else VState.error] := by
  have h1 : 3500 < tResp + 5000 := by omega
  have h2 : 1500 < 3500 := by omega
  unfold attemptStateTrace sortByTime verifyTokenSchedule
  simp only [List.foldr_cons, List.foldr_nil]
  rw [insertByTime, insertByTime, if_pos h1, insertByTime, if_pos h2]
  rfl

/-- Claim C3: the terminal update of a verifyToken run is scheduled only
once the real /api/verify outcome is known: the unique success-or-error
update in the schedule fires at tResp + 5000, hence no earlier than the
response time tResp itself, and its value is determined by the real
response (success exactly when the response reported success), so a late
real failure is never displaced by an earlier optimistic terminal display. -/
theorem terminal_reflects_real_result (respOk : Bool) (tResp : ℕ)
    (u : ScheduledUpdate) (hu : u ∈ verifyTokenSchedule respOk tResp)
    (hterm : u.target = VState.success ∨ u.target = VState.error) :
    u.time = tResp + 5000 ∧ tResp ≤ u.time ∧
    u.target = (if respOk then VState.success else VState.error) := by
  simp only [verifyTokenSchedule, List.mem_cons, List.not_mem_nil, or_false] at hu
  rcases hu with h | h | h
  · subst h; simp at hterm
  · subst h; simp at hterm
  · subst h
    refine ⟨rfl, ?_, rfl⟩
    show tResp ≤ tResp + 5000
    omega

theorem terminal_reflects_real_result_witness :
    (⟨7 + 5000, VState.error⟩ : ScheduledUpdate).time = 7 + 5000 ∧
    7 ≤ (⟨7 + 5000, VState.error⟩ : ScheduledUpdate).time ∧
    (⟨7 + 5000, VState.error⟩ : ScheduledUpdate).target
      = (if false then VState.success else VState.error) :=
  terminal_reflects_real_result false 7 ⟨7 + 5000, VState.error⟩
    (by simp [verifyTokenSchedule]) (Or.inr rfl)

/-! Embedding of the page component state and its handlers (src/app/page.tsx). -/

/-- The useState fields of VerificationPage that carry the attempt and its
presentation (page.tsx lines 39-47); layout-only fields (wallpaper, fade-in
visibility, device class) are omitted as they never interact with the
verification flow. -/
structure PageState where
  state : VState
  currentMessage : String
  typewriterIndex : ℕ
  siteKey : Option String
  configLoaded : Bool
  errorDetails : String
  retryCount : ℕ
  countdown : ℕ
deriving Repr, DecidableEq

/-- The initial values of the useState hooks on mount. -/
def initialPageState : PageState :=
  ⟨VState.loading, "", 0, none, false, "", 0, 5⟩

/-- The handleRetry click handler (page.tsx lines 417-433): set state back
to loading, clear the typed message and typewriter position, clear the
error details, and increment the retry counter; the remaining teardown
(script and grecaptcha removal) touches no React state. -/
def handleRetry (s : PageState) : PageState :=
  { s with
    state := VState.loading
    currentMessage := ""
    typewriterIndex := 0
    errorDetails := ""
    retryCount := s.retryCount + 1 }

/-- Claim C7: triggering retry from the error state clears the prior error
detail to empty, increments the retry counter by exactly 1 and returns the
state field to loading; of the remaining fields, the attempt-model fields
(countdown, siteKey, configLoaded) are untouched, and only the typewriter
presentation buffer and its index are additionally reset. -/
theorem handle_retry_resets (s : PageState) (h : s.state = VState.error) :
    (handleRetry s).state = VState.loading ∧
    (handleRetry s).errorDetails = "" ∧
    (handleRetry s).retryCount = s.retryCount + 1 ∧
    (handleRetry s).countdown = s.countdown ∧
    (handleRetry s).siteKey = s.siteKey ∧
    (handleRetry s).configLoaded = s.configLoaded ∧
    (handleRetry s).currentMessage = "" ∧
    (handleRetry s).typewriterIndex = 0 := by
  simp [handleRetry]

/-- Concrete error-state page used by the retry witness. -/
def retryExampleState : PageState :=
  ⟨VState.error, "Verification failed. Please try again.", 0, some "sitekey", true,
   "Network error: fetch failed", 2, 5⟩

theorem handle_retry_resets_witness :
    (handleRetry retryExampleState).state = VState.loading ∧
    (handleRetry retryExampleState).errorDetails = "" ∧
    (handleRetry retryExampleState).retryCount = retryExampleState.retryCount + 1 ∧
    (handleRetry retryExampleState).countdown = retryExampleState.countdown ∧
    (handleRetry retryExampleState).siteKey = retryExampleState.siteKey ∧
    (handleRetry retryExampleState).configLoaded = retryExampleState.configLoaded ∧
    (handleRetry retryExampleState).currentMessage = "" ∧
    (handleRetry retryExampleState).typewriterIndex = 0 :=
  handle_retry_resets retryExampleState rfl

/-- The fetchConfig effect (page.tsx lines 95-128).  resp describes the
fetch of /api/recaptcha-config as the page sees it: none when the fetch or
its JSON parse threw, some none for a response body without a (truthy)
siteKey, some (some k) for a body carrying siteKey k.  isDevelopment is the
NODE_ENV development check; the finally block always marks the config as
loaded. -/
def fetchConfig (isDevelopment : Bool) (resp : Option (Option String))
    (s : PageState) : PageState :=
  match resp with
  | some (some key) => { s with siteKey := some key, configLoaded := true }
  | some none =>
    if isDevelopment then
      { s with siteKey := some "development-mode", configLoaded := true }
    else
      { s with errorDetails := "Configuration error: No site key available",
               configLoaded := true }
  | none =>
    if isDevelopment then
      { s with siteKey := some "development-mode", configLoaded := true }
    else
      { s with errorDetails := "Failed to load verification configuration",
               configLoaded := true }

/-- The guard of the verification-flow useEffect (page.tsx line 149): the
flow does nothing unless the config is loaded and a siteKey is present. -/
def flowStarts (s : PageState) : Bool :=
  s.configLoaded && s.siteKey.isSome

/-- Claim C9, failing half (the code bug): in production, when the config
fetch completes without a siteKey, fetchConfig records an error detail but
leaves the state field at the non-terminal loading value and leaves siteKey
unset, so the verification-flow guard never fires and no transition to the
terminal error state can ever occur — the attempt remains in a non-terminal
state, contrary to the claim.  In development the fallback half does hold:
the simulated-verification site key is installed. -/
theorem config_missing_production_stays_loading :
    (fetchConfig false (some none) initialPageState).state = VState.loading ∧
    (fetchConfig false (some none) initialPageState).errorDetails
      = "Configuration error: No site key available" ∧
    flowStarts (fetchConfig false (some none) initialPageState) = false ∧
    (fetchConfig true (some none) initialPageState).siteKey
      = some "development-mode" :=
  ⟨rfl, rfl, rfl, rfl⟩

/-! Embedding of the environment-signal utilities (src/unnamed/part_000). -/

/-- The location record the geolocation adapters assemble
(UserData location, part_000 lines 6-15); the nested coordinates object is
flattened into its two fields, and absent-or-undefined fields are none. -/
structure IPLocation where
  country : Option String
  region : Option String
  city : Option String
  timezone : Option String
  latitude : Option ℚ
  longitude : Option ℚ
deriving Repr, DecidableEq

/-- One geolocation provider attempt as the loop body of getIPLocation
observes it: some loc when the response was 2xx and the adapter parsed it
into loc; none for a timeout, a non-2xx response, or an adapter exception
(all of which hit the catch-and-continue branch). -/
abbrev ProviderOutcome := Option IPLocation

/-- The for-loop over services inside getIPLocation (part_000 lines
286-317): providers are tried strictly in listed order; the first success
is returned immediately with its timezone field coalesced to the locally
known timezone, and no later provider is invoked.  The second component
counts how many providers were actually invoked. -/
def sweepProviders (localTz : String) : List ProviderOutcome → Option IPLocation × ℕ
  | [] => (none, 0)
  | o :: rest =>
    match o with
    | some loc =>
      (some { loc with timezone := some (loc.timezone.getD localTz) }, 1)
    | none =>
      let r := sweepProviders localTz rest
      (r.1, r.2 + 1)

/-- getIPLocation (part_000 lines 238-331): run the ordered provider sweep;
on total exhaustion return the defined fallback — the locally known
timezone with country, region and city set to "Unknown" — rather than
throwing.  localTz models Intl.DateTimeFormat().resolvedOptions().timeZone. -/
def getIPLocation (localTz : String) (outcomes : List ProviderOutcome) :
    IPLocation × ℕ :=
  match sweepProviders localTz outcomes with
  | (some loc, n) => (loc, n)
  | (none, n) =>
    (⟨some "Unknown", some "Unknown", some "Unknown", some localTz, none, none⟩, n)

/-- Claim C4: getIPLocation tries its providers strictly in listed order
and returns the first successfully parsed result: for any provider list of
the form [fail, fail, success X, success Y], the result is X (here X parses
with its own timezone, so no field is rewritten) and only three providers
are invoked — the success Y provider is never contacted. -/
theorem resolver_short_circuit (localTz : String) (X Y : IPLocation)
    (tz : String) (htz : X.timezone = some tz) :
    getIPLocation localTz [none, none, some X, some Y] = (X, 3) := by
  obtain ⟨c, r, ci, t, la, lo⟩ := X
  simp only [IPLocation.mk.injEq] at htz
  subst htz
  simp [getIPLocation, sweepProviders]

/-- First successful geolocation payload used by the short-circuit witness. -/
def locParis : IPLocation :=
  ⟨some "France", some "Ile-de-France", some "Paris", some "Europe/Paris",
   some 48, some 2⟩

/-- Later successful geolocation payload that must never be consulted. -/
def locLyon : IPLocation :=
  ⟨some "France", some "Auvergne", some "Lyon", some "Europe/Paris",
   some 45, some 4⟩

theorem resolver_short_circuit_witness :
    getIPLocation "UTC" [none, none, some locParis, some locLyon] = (locParis, 3) :=
  resolver_short_circuit "UTC" locParis locLyon "Europe/Paris" rfl

/-- Claim C5: when every geolocation provider fails, getIPLocation does not
propagate an error: it returns exactly the defined fallback value, the
locally known timezone together with country, region and city "Unknown"
(the embedding is a total function, mirroring the source's catch-all
structure: every failure path lands in the fallback return). -/
theorem resolver_exhaustion (localTz : String) (outs : List ProviderOutcome)
    (h : ∀ o ∈ outs, o = none) :
    (getIPLocation localTz outs).1
      = ⟨some "Unknown", some "Unknown", some "Unknown", some localTz, none, none⟩ := by
  have hsweep : ∀ l : List ProviderOutcome, (∀ o ∈ l, o = none) →
      (sweepProviders localTz l).1 = none := by
    intro l
    induction l with
    | nil => intro _; rfl
    | cons o rest ih =>
      intro hl
      have ho : o = none := hl o (List.mem_cons_self o rest)
      subst ho
      have : (sweepProviders localTz rest).1 = none :=
        ih (fun x hx => hl x (List.mem_cons_of_mem _ hx))
      simp [sweepProviders, this]
  have h1 := hsweep outs h
  have h2 : sweepProviders localTz outs
      = (none, (sweepProviders localTz outs).2) :=
    Prod.ext_iff.mpr ⟨h1, rfl⟩
  unfold getIPLocation
  rw [h2]

theorem resolver_exhaustion_witness :
    (getIPLocation "Europe/Berlin" [none, none, none]).1
      = ⟨some "Unknown", some "Unknown", some "Unknown", some "Europe/Berlin",
         none, none⟩ :=
  resolver_exhaustion "Europe/Berlin" [none, none, none] (by simp)

/-- JavaScript ToInt32: reduce modulo 2^32 and reinterpret as a signed
32-bit value; this is what the source's hash = hash & hash performs, and
what << applies to its result. -/
def toInt32 (n : ℤ) : ℤ :=
  let m := n % 4294967296
  if m < 2147483648 then m else m - 4294967296

/-- One iteration of the fingerprint loop (part_000 lines 358-362):
hash = (hash << 5) - hash + charCode, then hash = hash & hash.  The shift
operates on 32-bit values, so (hash << 5) is toInt32 (hash * 32); the
subtraction and addition are exact, and the final conjunction masks the
result back to 32 bits. -/
def hashStep (hash : ℤ) (charCode : ℕ) : ℤ :=
  toInt32 (toInt32 (hash * 32) - hash + charCode)

/-- The rolling hash of generateFingerprint over the UTF-16 code units of
the concatenated signal string, starting from 0. -/
def fingerprintHash (codes : List ℕ) : ℤ :=
  codes.foldl hashStep 0

/-- generateFingerprint's final formatting (part_000 line 364):
Math.abs(hash).toString(16), the absolute value printed in lowercase
hexadecimal. -/
def generateFingerprint (codes : List ℕ) : String :=
  (Nat.toDigits 16 (fingerprintHash codes).natAbs).asString

/-- Claim C6: the fingerprint hash is a pure function of its input string —
identical code-unit input always yields identical output — and the length-0
input yields the defined, non-negative hex value "0" (the loop body never
runs, the hash stays 0, and Math.abs(0).toString(16) is "0"). -/
theorem fingerprint_deterministic :
    (∀ a b : List ℕ, a = b → generateFingerprint a = generateFingerprint b) ∧
    generateFingerprint [] = "0" ∧ (0 : ℤ) ≤ fingerprintHash [] :=
  ⟨fun _ _ h => by rw [h], rfl, le_refl 0⟩

theorem fingerprint_deterministic_witness :
    generateFingerprint [72, 105] = generateFingerprint [72, 105] ∧
    generateFingerprint [] = "0" :=
  ⟨fingerprint_deterministic.1 [72, 105] [72, 105] rfl,
   fingerprint_deterministic.2.1⟩

/-- The browser-name classification of detectBrowser (part_000 lines
74-98), with the version-string extraction projected away: the chain of
userAgent.includes tests in source order. -/
def detectBrowserName (userAgent : String) : String :=
  if jsIncludes userAgent "Chrome" && !jsIncludes userAgent "Edg" then "Chrome"
  else if jsIncludes userAgent "Firefox" then "Firefox"
  else if jsIncludes userAgent "Safari" && !jsIncludes userAgent "Chrome" then "Safari"
  else if jsIncludes userAgent "Edg" then "Edge"
  else if jsIncludes userAgent "Opera" || jsIncludes userAgent "OPR" then "Opera"
  else "Unknown"

/-- A real Opera agent string: it carries both the generic Chrome token and
the vendor-specific OPR token (and no Edg token). -/
def operaUA : String :=
  "Mozilla/5.0 AppleWebKit/537.36 (KHTML, like Gecko) Chrome/120.0.0.0 Safari/537.36 OPR/106.0.0.0"

/-- An Edge agent string: the generic Chrome token next to the
vendor-specific Edg token. -/
def edgeUA : String :=
  "Mozilla/5.0 AppleWebKit/537.36 (KHTML, like Gecko) Chrome/120.0.0.0 Safari/537.36 Edg/120.0.2210.91"

/-- Claim C8, counterexample: the Opera agent string contains both the
generic Chrome token and the vendor-specific OPR token, yet detectBrowser
classifies it as "Chrome", not "Opera" — the first branch matches any agent
containing Chrome without Edg before the Opera test is ever reached, so
vendor precedence fails for Opera. -/
theorem vendor_precedence_counterexample :
    jsIncludes operaUA "Chrome" = true ∧ jsIncludes operaUA "OPR" = true ∧
    detectBrowserName operaUA = "Chrome" ∧ detectBrowserName operaUA ≠ "Opera" := by
  refine ⟨by decide, by decide, by decide, by decide⟩

/-- Claim C8 as amended: vendor precedence over the generic Chrome token is
implemented only for Edge — an agent string containing Chrome and Edg (and
no Firefox token) classifies as "Edge", while an agent string containing
Chrome and the Opera OPR token but no Edg classifies as "Chrome". -/
theorem vendor_precedence_amended (ua : String)
    (hC : jsIncludes ua "Chrome" = true) :
    (jsIncludes ua "Edg" = true → jsIncludes ua "Firefox" = false →
      detectBrowserName ua = "Edge") ∧
    (jsIncludes ua "Edg" = false → detectBrowserName ua = "Chrome") := by
  constructor
  · intro hE hF
    simp [detectBrowserName, hC, hE, hF]
  · intro hE
    simp [detectBrowserName, hC, hE]

theorem vendor_precedence_amended_witness :
    detectBrowserName edgeUA = "Edge" :=
  (vendor_precedence_amended edgeUA (by decide)).1 (by decide) (by decide)
